import Mathlib

/- Verification of the kyro moderation bot core against its specification.

   Shallow embedding of:
   - the confirmation workflow views in src/bot/cogs/mods/cmds.py
     (ConfirmKickView, ConfirmUnbanView),
   - the audit sink in src/bot/services/mod_logging.py (log_moderation_action),
   - the confession relay in src/bot/cogs/user/confession.py (confess),
   - the AFK tracker message listener in src/bot/cogs/user/afk.py (on_message),
   - the bootstrap schema DEFAULT_SCHEMA in src/bot/db.py.

   External calls (platform kick/ban/unban, database execute, channel send)
   are modelled by outcome parameters: every way the call can return or raise
   in the Python source is one constructor, and the embedded handler maps
   those outcomes to state updates plus an ordered list of emitted effects,
   mirroring the control flow of the source line by line. -/

namespace Kyro

/-! ## Confirmation workflow (src/bot/cogs/mods/cmds.py) -/

/-- Outcome of a platform moderation call (target.kick / target.ban /
guild.unban), one constructor per except-clause in the source. -/
inductive ActionOutcome where
  | ok
  | forbidden
  | notFound
  | httpError (e : String)
  | unexpected (e : String)
deriving DecidableEq, Repr

/-- success flag as computed in the try/except of ConfirmKickView.confirm. -/
def actionSuccess : ActionOutcome → Bool
  | .ok => true
  | _ => false

/-- kick_note as assigned by the except-clauses of ConfirmKickView.confirm. -/
def kickNote : ActionOutcome → Option String
  | .ok => none
  | .forbidden => some "Missing permissions or role hierarchy prevents kick (Forbidden)."
  | .notFound => some "Member not found / already left the guild."
  | .httpError e => some ("Discord API error during kick: " ++ e)
  | .unexpected e => some ("Unexpected error during kick: " ++ e)

/-- unban_note as assigned by the except-clauses of ConfirmUnbanView.confirm. -/
def unbanNote : ActionOutcome → Option String
  | .ok => none
  | .forbidden => some "Missing permissions to unban (Forbidden)."
  | .notFound => some "User not found in ban list (maybe already unbanned)."
  | .httpError e => some ("Discord API error during unban: " ++ e)
  | .unexpected e => some ("Unexpected error during unban: " ++ e)

/-- Arguments of one call to log_moderation_action, as passed by the views. -/
structure AuditCall where
  action : String
  target_id : Nat
  target_name : String
  moderator_id : Nat
  moderator_name : String
  reason : String
  success : Bool
  note : Option String
  timestamp : Int
deriving DecidableEq, Repr

/-- Observable effects emitted by a confirmation-view button handler, in
program order. -/
inductive Effect where
  | ephemeralReject (presserId : Nat) (text : String)
  | editMessage (content : String)
  | platformKick (targetId : Nat) (reason : String)
  | platformUnban (userId : Nat) (reason : String)
  | audit (call : AuditCall)
  | followup (content : String) (ephemeral : Bool)
  | disableEdit
deriving DecidableEq, Repr

/-- Mutable state of ConfirmKickView: the invoker, the target member, the
reason, and the disabled flags of the two buttons (set together in the
source, so modelled as one flag). -/
structure ViewState where
  invokerId : Nat
  targetId : Nat
  reason : Option String
  childrenDisabled : Bool
deriving DecidableEq, Repr

/-- `self.reason or "No reason provided"` from the source. -/
def orDefault (r : Option String) : String := r.getD "No reason provided"

/-- Final moderator-facing message built from parts in ConfirmKickView.confirm. -/
def kickFinalMsg (success : Bool) (targetName : String) (note : Option String) : String :=
  let head :=
    if success then "✅ Successfully kicked " ++ targetName
    else "❌ Failed to kick " ++ targetName ++ " - see log for details"
  match note with
  | some n => head ++ "\n" ++ "Kick: " ++ n ++ " - Please report this to a developer"
  | none => head

/-- ConfirmKickView.confirm. `outcome` is what the platform kick call would
return or raise when attempted; `ts` is the timestamp taken in the handler.
Faithful to the source: the only guard is the invoker-id check, and there is
no check of any already-resolved state before acting. -/
def confirmKick (s : ViewState) (presserId : Nat) (presserName targetName : String)
    (outcome : ActionOutcome) (ts : Int) : ViewState × List Effect :=
  if presserId ≠ s.invokerId then
    (s, [.ephemeralReject presserId
          "Only the user who invoked the command can confirm this action."])
  else
    let s1 : ViewState := { s with childrenDisabled := true }
    let reason := orDefault s.reason
    let success := actionSuccess outcome
    let note := kickNote outcome
    let call : AuditCall :=
      { action := "kick", target_id := s.targetId, target_name := targetName,
        moderator_id := presserId, moderator_name := presserName,
        reason := reason, success := success, note := note, timestamp := ts }
    (s1, [.editMessage "Performing kick…",
          .platformKick s.targetId
            (reason ++ " - moderator:" ++ presserName ++ " (" ++ toString presserId ++ ")"),
          .audit call,
          .followup (kickFinalMsg success targetName note) true,
          .disableEdit])

/-- ConfirmKickView.cancel. -/
def cancelKick (s : ViewState) (presserId : Nat) : ViewState × List Effect :=
  if presserId ≠ s.invokerId then
    (s, [.ephemeralReject presserId
          "Only the user who invoked the command can cancel this action."])
  else
    ({ s with childrenDisabled := true },
     [.editMessage "Kick cancelled.", .disableEdit])

/-- Which button a press event hits. -/
inductive PressKind where
  | confirmPress
  | cancelPress
deriving DecidableEq, Repr

/-- One button-press event delivered to the view, together with the outcome
the platform would report if a kick is attempted while handling it. -/
structure PressEvent where
  kind : PressKind
  presserId : Nat
  presserName : String
  outcome : ActionOutcome
  ts : Int
deriving DecidableEq, Repr

/-- Dispatch of one press event to the matching handler. -/
def stepKick (targetName : String) (s : ViewState) (e : PressEvent) :
    ViewState × List Effect :=
  match e.kind with
  | .confirmPress => confirmKick s e.presserId e.presserName targetName e.outcome e.ts
  | .cancelPress => cancelKick s e.presserId

/-- A whole confirmation session: the press events are handled in arrival
order, each running to completion, and all effects are concatenated. -/
def runKickSession (targetName : String) (s : ViewState) :
    List PressEvent → ViewState × List Effect
  | [] => (s, [])
  | e :: rest =>
    let (s1, effs) := stepKick targetName s e
    let (s2, more) := runKickSession targetName s1 rest
    (s2, effs ++ more)

/-- Number of destructive platform kick attempts among the effects. -/
def kickAttempts (effs : List Effect) : Nat :=
  (effs.filter fun e =>
    match e with
    | .platformKick _ _ => true
    | _ => false).length

/-- The audit-sink calls among the effects, in order. -/
def auditCalls (effs : List Effect) : List AuditCall :=
  effs.filterMap fun e =>
    match e with
    | .audit c => some c
    | _ => none

/-! ### Unban view -/

/-- Result of the ban-list check phase of ConfirmUnbanView.confirm: the entry
was found (directly or via the full-list scan), the user is not in the list,
or the check itself failed. -/
inductive BanCheck where
  | found
  | notBanned
  | checkForbidden
  | checkError (e : String)
deriving DecidableEq, Repr

/-- ban_check_error as assigned by the outer except-clauses. -/
def banCheckErrorNote : BanCheck → Option String
  | .checkForbidden => some "Missing permission to read ban list (Forbidden)."
  | .checkError e => some ("Error checking ban status: " ++ e)
  | _ => none

/-- ban_entry is not None after the check phase. -/
def banEntryFound : BanCheck → Bool
  | .found => true
  | _ => false

/-- The source attempts the platform unban unless both ban_entry is None and
ban_check_error is None. -/
def unbanAttempted (c : BanCheck) : Bool :=
  banEntryFound c || (banCheckErrorNote c).isSome

/-- success as computed by ConfirmUnbanView.confirm: false when the unban is
never attempted, otherwise the platform outcome. -/
def unbanSuccess (c : BanCheck) (o : ActionOutcome) : Bool :=
  unbanAttempted c && actionSuccess o

/-- action_note: the joined Ban-check and Unban notes, None when both empty. -/
def unbanActionNote (c : BanCheck) (o : ActionOutcome) : Option String :=
  let checkPart :=
    match banCheckErrorNote c with
    | some e => ["Ban-check: " ++ e]
    | none => []
  let actPart :=
    match (if unbanAttempted c then unbanNote o else some "User is not banned.") with
    | some n => ["Unban: " ++ n]
    | none => []
  let notes := checkPart ++ actPart
  if notes.isEmpty then none else some (String.intercalate "; " notes)

/-- Mutable state of ConfirmUnbanView. -/
structure UnbanViewState where
  invokerId : Nat
  targetUserId : Nat
  reason : Option String
  childrenDisabled : Bool
deriving DecidableEq, Repr

/-- Final moderator-facing message built in ConfirmUnbanView.confirm. -/
def unbanFinalMsg (success : Bool) (targetName : String) (note : Option String) : String :=
  let head :=
    if success then "✅ Successfully unbanned " ++ targetName
    else "❌ Failed to unban " ++ targetName ++ " - see log for details"
  match note with
  | some n => head ++ "\n" ++ n
  | none => head

/-- ConfirmUnbanView.confirm. `c` is the outcome of the ban-list check and
`o` the outcome the platform unban call would report if attempted. -/
def confirmUnban (s : UnbanViewState) (presserId : Nat) (presserName targetName : String)
    (c : BanCheck) (o : ActionOutcome) (ts : Int) : UnbanViewState × List Effect :=
  if presserId ≠ s.invokerId then
    (s, [.ephemeralReject presserId
          "Only the user who invoked the command can confirm this action."])
  else
    let s1 : UnbanViewState := { s with childrenDisabled := true }
    let reason := orDefault s.reason
    let success := unbanSuccess c o
    let note := unbanActionNote c o
    let call : AuditCall :=
      { action := "unban", target_id := s.targetUserId, target_name := targetName,
        moderator_id := presserId, moderator_name := presserName,
        reason := reason, success := success, note := note, timestamp := ts }
    let unbanEff : List Effect :=
      if unbanAttempted c then
        [.platformUnban s.targetUserId
          (reason ++ " - moderator:" ++ presserName ++ " (" ++ toString presserId ++ ")")]
      else []
    (s1, [Effect.editMessage "Performing unban…"] ++ unbanEff ++
         [.audit call,
          .followup (unbanFinalMsg success targetName note) true,
          .disableEdit])

/-- ConfirmUnbanView.cancel. -/
def cancelUnban (s : UnbanViewState) (presserId : Nat) : UnbanViewState × List Effect :=
  if presserId ≠ s.invokerId then
    (s, [.ephemeralReject presserId
          "Only the user who invoked the command can cancel this action."])
  else
    ({ s with childrenDisabled := true },
     [.editMessage "Unban cancelled.", .disableEdit])

/-! ## Audit sink (src/bot/services/mod_logging.py) -/

/-- Outcome of the DB phase of log_moderation_action: bot.db missing,
db.execute returned a rowid, db.execute returned None, or db.execute
raised. -/
inductive DbOutcome where
  | noDb
  | rowidSome (r : Nat)
  | rowidNone
  | raisesErr (e : String)
deriving DecidableEq, Repr

/-- Outcome of the channel phase: setting absent, channel unresolvable,
send succeeded, or send raised. -/
inductive ChanOutcome where
  | unconfigured
  | unresolvable (cid : Nat)
  | sendOk (cid : Nat)
  | sendFail (cid : Nat) (e : String)
deriving DecidableEq, Repr

/-- ModLogResult dataclass from the source. -/
structure ModLogResult where
  db_ok : Bool
  db_rowid : Option Nat
  db_error : Option String
  modlog_ok : Bool
  modlog_error : Option String
deriving DecidableEq, Repr

/-- External sub-operations actually attempted by the audit sink. -/
inductive SinkStep where
  | dbInsert
  | channelSend (cid : Nat)
deriving DecidableEq, Repr

/-- db_ok as computed by step 1 of the source. -/
def dbPhaseOk : DbOutcome → Bool
  | .rowidSome _ => true
  | _ => false

/-- modlog_ok as computed by step 2 of the source. -/
def chanPhaseOk : ChanOutcome → Bool
  | .sendOk _ => true
  | _ => false

/-- log_moderation_action: two failure-isolated phases run in sequence, each
catching its own exceptions; returns the structured result and the list of
external sub-operations attempted. Total by construction: every source path
ends at the final return statement. -/
def log_moderation_action (dbO : DbOutcome) (chO : ChanOutcome) :
    ModLogResult × List SinkStep :=
  let dbPart : Bool × Option Nat × Option String × List SinkStep :=
    match dbO with
    | .noDb => (false, none, some "DB not initialized on bot", [])
    | .rowidSome r => (true, some r, none, [SinkStep.dbInsert])
    | .rowidNone => (false, none, some "db.execute returned None", [SinkStep.dbInsert])
    | .raisesErr e => (false, none, some e, [SinkStep.dbInsert])
  let chPart : Bool × Option String × List SinkStep :=
    match chO with
    | .unconfigured => (false, some "mod_log_channel_id not configured", [])
    | .unresolvable cid =>
        (false, some ("mod_log_channel_id=" ++ toString cid ++ " not found"), [])
    | .sendOk cid => (true, none, [SinkStep.channelSend cid])
    | .sendFail cid e =>
        (false, some ("Failed sending to channel: " ++ e), [SinkStep.channelSend cid])
  ({ db_ok := dbPart.1, db_rowid := dbPart.2.1, db_error := dbPart.2.2.1,
     modlog_ok := chPart.1, modlog_error := chPart.2.1 },
   dbPart.2.2.2 ++ chPart.2.2)

/-- The channel-send attempts among the attempted sub-operations. -/
def sendAttempts (steps : List SinkStep) : List SinkStep :=
  steps.filter fun s =>
    match s with
    | .channelSend _ => true
    | _ => false

/-! ## Confession relay (src/bot/cogs/user/confession.py) -/

/-- Parameters bound by _INSERT_CONFESSION_SQL: (content, category, timestamp). -/
structure ConfessionInsert where
  content : String
  category : String
  timestamp : Int
deriving DecidableEq, Repr

/-- One row of the confessions table. -/
structure ConfessionRow where
  content : String
  category : String
  timestamp : Int
  message_id : Option Nat
  deleted : Bool
deriving DecidableEq, Repr

/-- Modelled from the spec: the confessions table DDL is absent from
DEFAULT_SCHEMA in src/bot/db.py, so the column defaults are taken from the
spec schema `confessions(id, content, category, timestamp, message_id NULL,
deleted)`: a freshly inserted row carries message_id NULL and deleted false
until later UPDATE statements change them. -/
def applyConfessionInsert (i : ConfessionInsert) : ConfessionRow :=
  { content := i.content, category := i.category, timestamp := i.timestamp,
    message_id := none, deleted := false }

/-- The in-memory rate-limit map self._last_confess, user id to last
timestamp, with dictionary overwrite semantics. -/
abbrev RateMap := List (Nat × Int)

/-- self._last_confess.get(uid). -/
def rlGet (m : RateMap) (u : Nat) : Option Int :=
  (m.find? fun p => p.1 == u).map Prod.snd

/-- self._last_confess[uid] = t. -/
def rlSet (m : RateMap) (u : Nat) (t : Int) : RateMap :=
  (u, t) :: m.filter fun p => p.1 != u

/-- self._last_confess.pop(uid, None). -/
def rlPop (m : RateMap) (u : Nat) : RateMap :=
  m.filter fun p => p.1 != u

/-- The ephemeral responses the confess handler can send to the submitter. -/
inductive Reply where
  | emptyRejected
  | tooLongRejected
  | rateLimited (rateSeconds remaining : Int)
  | dbUnavailable
  | saveFailed
  | channelUnconfigured
  | postedAck
deriving DecidableEq, Repr

/-- The embed posted to the confession channel: title, description (the
truncated content) and the Category field. -/
structure Embed where
  title : String
  description : String
  categoryField : String
deriving DecidableEq, Repr

/-- not message.strip() from the source: Python str.strip() with no
argument removes whitespace from both ends, so its result is empty exactly
when every character of the string is whitespace. -/
def stripEmpty (s : String) : Bool := s.data.all Char.isWhitespace

/-- _truncate from the source. -/
def truncateTo (s : String) (limit : Nat) : String :=
  if s.length ≤ limit then s
  else (s.take (limit - 3)).trimRight ++ "..."

/-- Outcome of db.execute for the confession INSERT. -/
inductive InsertOutcome where
  | ok (rowid : Option Nat)
  | raisesErr (e : String)
deriving DecidableEq, Repr

/-- Outcome of channel.send for the confession embed. -/
inductive PostOutcome where
  | sent (msgId : Nat)
  | failed (e : String)
deriving DecidableEq, Repr

/-- External-world behaviour the confess handler runs against. -/
structure ConfessEnv where
  dbAvailable : Bool
  insert : InsertOutcome
  channelId : Option Nat
  channelResolves : Bool
  post : PostOutcome
deriving DecidableEq, Repr

/-- Ordered trace of the confess handler: rate-map writes, the DB insert,
the channel post, the message-id back-fill, and replies to the submitter. -/
inductive CStep where
  | rateReserve (u : Nat) (t : Int)
  | rateRollback (u : Nat)
  | insertAttempt (i : ConfessionInsert)
  | postEmbed (e : Embed)
  | backfill (msgId : Nat) (confessionId : Nat)
  | reply (r : Reply)
deriving DecidableEq, Repr

/-- Result of one confess invocation: the new rate-limit map and the trace. -/
structure ConfessResult where
  newMap : RateMap
  trace : List CStep
deriving DecidableEq, Repr

/-- Continuation of confess after the rate-limit check passed and the
reservation was written (m1 already holds it). -/
def confessAccept (env : ConfessEnv) (m1 : RateMap) (uid : Nat)
    (catName catValue message : String) (now : Int) : ConfessResult :=
  if env.dbAvailable = false then
    ⟨rlPop m1 uid, [.rateReserve uid now, .rateRollback uid, .reply .dbUnavailable]⟩
  else
    match env.insert with
    | .raisesErr _ =>
      ⟨rlPop m1 uid,
       [.rateReserve uid now, .insertAttempt ⟨message, catValue, now⟩,
        .rateRollback uid, .reply .saveFailed]⟩
    | .ok rowid =>
      let confessionId : Option Nat := rowid
      let insertStep := CStep.insertAttempt ⟨message, catValue, now⟩
      match env.channelId with
      | none =>
        ⟨m1, [.rateReserve uid now, insertStep, .reply .channelUnconfigured]⟩
      | some _cid =>
        let embed : Embed :=
          { title := "Confession" ++
              (match confessionId with
               | some i => if i ≠ 0 then " #" ++ toString i else ""
               | none => ""),
            description := truncateTo message 1900,
            categoryField := catName }
        if env.channelResolves then
          match env.post with
          | .sent msgId =>
            let backfillSteps : List CStep :=
              match confessionId with
              | some i => if i ≠ 0 ∧ msgId ≠ 0 then [CStep.backfill msgId i] else []
              | none => []
            ⟨m1, [.rateReserve uid now, insertStep, .postEmbed embed] ++
                 backfillSteps ++ [.reply .postedAck]⟩
          | .failed _ =>
            ⟨m1, [.rateReserve uid now, insertStep, .postEmbed embed,
                  .reply .postedAck]⟩
        else
          ⟨m1, [.rateReserve uid now, insertStep, .reply .postedAck]⟩

/-- UserConfessionsCog.confess, as a function of the submitter, content,
category, current time, rate window and environment outcomes. -/
def confess (env : ConfessEnv) (m : RateMap) (uid : Nat)
    (catName catValue message : String) (now rateSeconds : Int) : ConfessResult :=
  if message = "" ∨ stripEmpty message = true then
    ⟨m, [.reply .emptyRejected]⟩
  else if 1500 < message.length then
    ⟨m, [.reply .tooLongRejected]⟩
  else
    match rlGet m uid with
    | some last =>
      if now - last < rateSeconds then
        ⟨m, [.reply (.rateLimited rateSeconds (rateSeconds - (now - last)))]⟩
      else
        confessAccept env (rlSet m uid now) uid catName catValue message now
    | none =>
      confessAccept env (rlSet m uid now) uid catName catValue message now

/-- The DB inserts in a trace, in order. -/
def confessionInserts (r : ConfessResult) : List ConfessionInsert :=
  r.trace.filterMap fun s =>
    match s with
    | .insertAttempt i => some i
    | _ => none

/-- The embeds posted (channel.send attempts) in a trace, in order. -/
def postedEmbeds (r : ConfessResult) : List Embed :=
  r.trace.filterMap fun s =>
    match s with
    | .postEmbed e => some e
    | _ => none

/-- The first reply sent to the submitter. -/
def theReply (r : ConfessResult) : Option Reply :=
  (r.trace.filterMap fun s =>
    match s with
    | .reply rep => some rep
    | _ => none).head?

/-- The persisted-or-posted part of a trace: DB inserts, channel posts and
back-fills, with the rate-map writes and submitter replies removed. -/
def publicTrace (r : ConfessResult) : List CStep :=
  r.trace.filter fun s =>
    match s with
    | .insertAttempt _ => true
    | .postEmbed _ => true
    | .backfill _ _ => true
    | _ => false

/-- An environment in which every external call succeeds. -/
def goodEnv : ConfessEnv :=
  { dbAvailable := true, insert := .ok (some 1), channelId := some 42,
    channelResolves := true, post := .sent 777 }

/-- An environment in which the confession INSERT raises. -/
def insertFailEnv : ConfessEnv :=
  { dbAvailable := true, insert := .raisesErr "sqlite unavailable",
    channelId := some 42, channelResolves := true, post := .sent 777 }

/-! ## AFK tracker (src/bot/cogs/user/afk.py) -/

/-- One afk_statuses row: reason (nullable) and since. -/
structure AfkRow where
  reason : Option String
  since : Int
deriving DecidableEq, Repr

/-- The afk_statuses table keyed by user_id. -/
abbrev AfkMap := List (Nat × AfkRow)

/-- SELECT ... FROM afk_statuses WHERE user_id = ?. -/
def afkGet (db : AfkMap) (u : Nat) : Option AfkRow :=
  (db.find? fun p => p.1 == u).map Prod.snd

/-- DELETE FROM afk_statuses WHERE user_id = ?. -/
def afkDelete (db : AfkMap) (u : Nat) : AfkMap :=
  db.filter fun p => p.1 != u

/-- A message author or mentioned user: id plus bot flag. -/
structure UserRef where
  id : Nat
  isBot : Bool
deriving DecidableEq, Repr

/-- Observable effects of the on_message listener. -/
inductive MsgEffect where
  | welcomeBack (userId : Nat)
  | welcomeDm (userId : Nat)
  | afkNotice (parts : List (Nat × String))
deriving DecidableEq, Repr

/-- The consolidated notice parts: for every non-bot mentioned id (the
Python set is modelled as a deduplicated list) with an active status in the
table, the pair of its id and its reason (or the default). -/
def mentionParts (db1 : AfkMap) (mentions : List UserRef) : List (Nat × String) :=
  (((mentions.filter fun u => !u.isBot).map UserRef.id).dedup).filterMap fun uid =>
    (afkGet db1 uid).map fun row => (uid, row.reason.getD "No reason provided")

/-- UserAfkCog.on_message over the afk_statuses table, for a message by
`author` in a guild channel when `hasGuild`, mentioning `mentions`. The
author clear phase runs first; the mention lookup then reads the updated
table. -/
def onMessage (db : AfkMap) (author : UserRef) (hasGuild : Bool)
    (mentions : List UserRef) : AfkMap × List MsgEffect :=
  if author.isBot then (db, [])
  else
    let cleared :=
      match afkGet db author.id with
      | some _row =>
        (afkDelete db author.id,
         (if hasGuild then [MsgEffect.welcomeBack author.id] else []) ++
           [MsgEffect.welcomeDm author.id])
      | none => (db, ([] : List MsgEffect))
    let parts := mentionParts cleared.1 mentions
    if parts.isEmpty then (cleared.1, cleared.2)
    else (cleared.1, cleared.2 ++ [MsgEffect.afkNotice parts])

/-! ## Bootstrap schema (src/bot/db.py) -/

/-- One CREATE TABLE statement: table name and column names. -/
structure TableDef where
  name : String
  columns : List String
deriving DecidableEq, Repr

/-- DEFAULT_SCHEMA from src/bot/db.py: the three CREATE TABLE IF NOT EXISTS
statements executed by Database.bootstrap on every startup. -/
def DEFAULT_SCHEMA : List TableDef :=
  [⟨"moderation_logs",
    ["id", "action", "target_id", "target_name", "moderator_id",
     "moderator_name", "reason", "timestamp", "success", "note"]⟩,
   ⟨"guild_members",
    ["user_id", "username", "nickname", "first_joined_at", "last_joined_at",
     "left_at"]⟩,
   ⟨"afk_statuses", ["user_id", "reason", "since"]⟩]

/-- The table named by _INSERT_CONFESSION_SQL in src/bot/cogs/user/confession.py. -/
def confessionInsertTable : String := "confessions"

/-- A concrete content of exactly 1500 characters. -/
def exactMsg : String := String.mk (List.replicate 1500 'a')

/-- A concrete content of 1501 characters. -/
def longMsg : String := String.mk (List.replicate 1501 'b')

/-! ## Helper lemmas on association lists -/

theorem find?_filter_ne {α : Type} (l : List (Nat × α)) (u v : Nat) (h : v ≠ u) :
    (l.filter fun p => p.1 != u).find? (fun p => p.1 == v) =
      l.find? (fun p => p.1 == v) := by
  rw [List.find?_filter]
  congr 1
  funext a
  by_cases hv : a.1 = v
  · have ha : a.1 ≠ u := by rw [hv]; exact h
    simp [hv, ha, h]
  · simp [hv]

theorem find?_filter_self {α : Type} (l : List (Nat × α)) (u : Nat) :
    (l.filter fun p => p.1 != u).find? (fun p => p.1 == u) = none := by
  rw [List.find?_eq_none]
  intro x hx
  have hpx := (List.mem_filter.mp hx).2
  simpa using hpx

theorem rlGet_rlSet_self (m : RateMap) (u : Nat) (t : Int) :
    rlGet (rlSet m u t) u = some t := by
  simp [rlGet, rlSet, List.find?_cons]

theorem rlGet_rlPop_self (m : RateMap) (u : Nat) :
    rlGet (rlPop m u) u = none := by
  unfold rlGet rlPop
  rw [find?_filter_self]
  rfl

theorem afkGet_afkDelete_self (db : AfkMap) (u : Nat) :
    afkGet (afkDelete db u) u = none := by
  unfold afkGet afkDelete
  rw [find?_filter_self]
  rfl

theorem afkGet_afkDelete_ne (db : AfkMap) (u v : Nat) (h : v ≠ u) :
    afkGet (afkDelete db u) v = afkGet db v := by
  unfold afkGet afkDelete
  rw [find?_filter_ne _ _ _ h]

/-! ## Helper lemmas: unfolding the confess control flow -/

theorem confess_empty_eq (env : ConfessEnv) (m : RateMap) (uid : Nat)
    (cn cv msg : String) (t W : Int) (hval : msg = "" ∨ stripEmpty msg = true) :
    confess env m uid cn cv msg t W = ⟨m, [.reply .emptyRejected]⟩ := by
  unfold confess
  rw [if_pos hval]

theorem confess_toolong_eq (env : ConfessEnv) (m : RateMap) (uid : Nat)
    (cn cv msg : String) (t W : Int) (hval : ¬(msg = "" ∨ stripEmpty msg = true))
    (hlong : 1500 < msg.length) :
    confess env m uid cn cv msg t W = ⟨m, [.reply .tooLongRejected]⟩ := by
  unfold confess
  rw [if_neg hval, if_pos hlong]

theorem not_val_of_strip (msg : String) (hmsg : stripEmpty msg = false) :
    ¬(msg = "" ∨ stripEmpty msg = true) := by
  rintro (h1 | h2)
  · rw [h1] at hmsg
    exact absurd hmsg (by decide)
  · rw [h2] at hmsg
    exact absurd hmsg (by decide)

theorem confess_accept_none (env : ConfessEnv) (m : RateMap) (uid : Nat)
    (cn cv msg : String) (t W : Int)
    (hmsg : stripEmpty msg = false) (hlen : msg.length ≤ 1500)
    (h0 : rlGet m uid = none) :
    confess env m uid cn cv msg t W =
      confessAccept env (rlSet m uid t) uid cn cv msg t := by
  unfold confess
  rw [if_neg (not_val_of_strip msg hmsg), if_neg (not_lt.mpr hlen)]
  simp only [h0]

theorem confess_accept_some (env : ConfessEnv) (m : RateMap) (uid : Nat)
    (cn cv msg : String) (last t W : Int)
    (hmsg : stripEmpty msg = false) (hlen : msg.length ≤ 1500)
    (h0 : rlGet m uid = some last) (hge : ¬(t - last < W)) :
    confess env m uid cn cv msg t W =
      confessAccept env (rlSet m uid t) uid cn cv msg t := by
  unfold confess
  rw [if_neg (not_val_of_strip msg hmsg), if_neg (not_lt.mpr hlen)]
  simp only [h0]
  rw [if_neg hge]

theorem confess_ratelimited_eq (env : ConfessEnv) (m : RateMap) (uid : Nat)
    (cn cv msg : String) (last t W : Int)
    (hmsg : stripEmpty msg = false) (hlen : msg.length ≤ 1500)
    (h0 : rlGet m uid = some last) (hlt : t - last < W) :
    confess env m uid cn cv msg t W =
      ⟨m, [.reply (.rateLimited W (W - (t - last)))]⟩ := by
  unfold confess
  rw [if_neg (not_val_of_strip msg hmsg), if_neg (not_lt.mpr hlen)]
  simp only [h0]
  rw [if_pos hlt]

theorem confessAccept_goodEnv (m1 : RateMap) (uid : Nat)
    (cn cv msg : String) (t : Int) :
    confessAccept goodEnv m1 uid cn cv msg t =
      ⟨m1, [.rateReserve uid t, .insertAttempt ⟨msg, cv, t⟩,
            .postEmbed ⟨"Confession #1", truncateTo msg 1900, cn⟩,
            .backfill 777 1, .reply .postedAck]⟩ := by
  simp [confessAccept, goodEnv]
  decide

theorem confessAccept_insertFailEnv (m1 : RateMap) (uid : Nat)
    (cn cv msg : String) (t : Int) :
    confessAccept insertFailEnv m1 uid cn cv msg t =
      ⟨rlPop m1 uid,
       [.rateReserve uid t, .insertAttempt ⟨msg, cv, t⟩, .rateRollback uid,
        .reply .saveFailed]⟩ := by
  simp [confessAccept, insertFailEnv]

/-! ## Claim theorems -/

/-- Claim C1, evaluation at the failing input: a kick confirmation session
receiving two confirm presses from the invoker performs the destructive
platform kick twice. The confirm handler only checks the presser identity;
it does not consult any already-resolved state, so the second delivered
press runs the whole action again. -/
theorem kick_double_confirm_two_attempts :
    kickAttempts (runKickSession "target" ⟨1, 2, none, false⟩
      [⟨.confirmPress, 1, "mod", .ok, 0⟩, ⟨.confirmPress, 1, "mod", .ok, 0⟩]).2 = 2 := by
  rfl

/-- Claim C2: a confirm or cancel press by an identity different from the
invoker leaves the view state entirely unchanged and produces exactly one
ephemeral rejection notice to the presser, for the kick and unban views. -/
theorem non_invoker_press_frame (s : ViewState) (u : UnbanViewState) (p : Nat)
    (n tn : String) (o : ActionOutcome) (c : BanCheck) (ts : Int)
    (hs : p ≠ s.invokerId) (hu : p ≠ u.invokerId) :
    confirmKick s p n tn o ts =
      (s, [.ephemeralReject p
            "Only the user who invoked the command can confirm this action."]) ∧
    cancelKick s p =
      (s, [.ephemeralReject p
            "Only the user who invoked the command can cancel this action."]) ∧
    confirmUnban u p n tn c o ts =
      (u, [.ephemeralReject p
            "Only the user who invoked the command can confirm this action."]) ∧
    cancelUnban u p =
      (u, [.ephemeralReject p
            "Only the user who invoked the command can cancel this action."]) := by
  refine ⟨?_, ?_, ?_, ?_⟩ <;>
    simp [confirmKick, cancelKick, confirmUnban, cancelUnban, hs, hu]

/-- Claim C2 witness at a concrete non-invoker press. -/
theorem non_invoker_press_frame_witness :
    ((9 : Nat) ≠ 1 ∧ (9 : Nat) ≠ 3) ∧
    confirmKick ⟨1, 2, none, false⟩ 9 "other" "target" .ok 0 =
      (⟨1, 2, none, false⟩,
       [.ephemeralReject 9
          "Only the user who invoked the command can confirm this action."]) :=
  ⟨⟨by decide, by decide⟩,
   (non_invoker_press_frame ⟨1, 2, none, false⟩ ⟨3, 4, none, false⟩ 9
      "other" "target" .ok .found 0 (by decide) (by decide)).1⟩

/-- Claim C3: an invoker confirm press makes exactly one call to the audit
sink, whose success flag is the actual platform outcome and whose note is
the classification of that outcome, both for the kick view and the unban
view. -/
theorem confirm_audits_exactly_once (s : ViewState) (u : UnbanViewState)
    (n tn : String) (o o2 : ActionOutcome) (c : BanCheck) (ts : Int) :
    auditCalls (confirmKick s s.invokerId n tn o ts).2 =
      [⟨"kick", s.targetId, tn, s.invokerId, n, orDefault s.reason,
        actionSuccess o, kickNote o, ts⟩] ∧
    auditCalls (confirmUnban u u.invokerId n tn c o2 ts).2 =
      [⟨"unban", u.targetUserId, tn, u.invokerId, n, orDefault u.reason,
        unbanSuccess c o2, unbanActionNote c o2, ts⟩] := by
  constructor
  · simp [confirmKick, auditCalls]
  · cases hc : unbanAttempted c <;> simp [confirmUnban, auditCalls, hc]

/-- Claim C4: the audit sink is total over every combination of external
outcomes, its db fields reflect only the insert outcome, its modlog fields
reflect only the channel outcome, and whether the channel post is attempted
is unaffected by the insert outcome. -/
theorem audit_sink_isolated (dbO dbO' : DbOutcome) (chO chO' : ChanOutcome) :
    (log_moderation_action dbO chO).1.db_ok = dbPhaseOk dbO ∧
    (log_moderation_action dbO chO).1.modlog_ok = chanPhaseOk chO ∧
    (log_moderation_action dbO chO).1.modlog_error =
      (log_moderation_action dbO' chO).1.modlog_error ∧
    (log_moderation_action dbO chO).1.db_error =
      (log_moderation_action dbO chO').1.db_error ∧
    (log_moderation_action dbO chO).1.db_rowid =
      (log_moderation_action dbO chO').1.db_rowid ∧
    sendAttempts (log_moderation_action dbO chO).2 =
      sendAttempts (log_moderation_action dbO' chO).2 := by
  refine ⟨?_, ?_, rfl, rfl, rfl, ?_⟩
  · cases dbO <;> rfl
  · cases chO <;> rfl
  · cases dbO <;> cases dbO' <;> cases chO <;> rfl

/-- Claim C7, evaluation of the code at the failing configuration: the
bootstrap schema creates exactly moderation_logs, guild_members and
afk_statuses; no table in it carries the name the confession INSERT
statement targets. -/
theorem default_schema_lacks_confessions :
    DEFAULT_SCHEMA.map TableDef.name =
      ["moderation_logs", "guild_members", "afk_statuses"] ∧
    DEFAULT_SCHEMA.all (fun t => t.name != confessionInsertTable) = true := by
  constructor
  · rfl
  · rfl

/-- Claim C5: under a working environment, a first submission at t0 records
t0 for the submitter; a second submission at t0 + d with d < W is rejected
with remaining wait exactly W - d and leaves the rate map and persisted
state untouched; with W ≤ d the second submission passes the rate-limit
check and is accepted (acknowledged and inserted). -/
theorem rate_limit_window (m : RateMap) (uid : Nat) (cn cv msg : String)
    (t0 d W : Int)
    (hmsg : stripEmpty msg = false) (hlen : msg.length ≤ 1500)
    (h0 : rlGet m uid = none) :
    rlGet (confess goodEnv m uid cn cv msg t0 W).newMap uid = some t0 ∧
    (d < W →
      confess goodEnv (confess goodEnv m uid cn cv msg t0 W).newMap uid
          cn cv msg (t0 + d) W =
        ⟨(confess goodEnv m uid cn cv msg t0 W).newMap,
         [.reply (.rateLimited W (W - d))]⟩) ∧
    (W ≤ d →
      theReply (confess goodEnv (confess goodEnv m uid cn cv msg t0 W).newMap
          uid cn cv msg (t0 + d) W) = some .postedAck ∧
      confessionInserts (confess goodEnv (confess goodEnv m uid cn cv msg t0 W).newMap
          uid cn cv msg (t0 + d) W) = [⟨msg, cv, t0 + d⟩]) := by
  have e0 : confess goodEnv m uid cn cv msg t0 W =
      confessAccept goodEnv (rlSet m uid t0) uid cn cv msg t0 :=
    confess_accept_none goodEnv m uid cn cv msg t0 W hmsg hlen h0
  have hmap : (confess goodEnv m uid cn cv msg t0 W).newMap = rlSet m uid t0 := by
    rw [e0, confessAccept_goodEnv]
  have hget : rlGet (confess goodEnv m uid cn cv msg t0 W).newMap uid = some t0 := by
    rw [hmap]
    exact rlGet_rlSet_self m uid t0
  refine ⟨hget, ?_, ?_⟩
  · intro hdW
    have harith : t0 + d - t0 = d := by omega
    have hthis := confess_ratelimited_eq goodEnv
      (confess goodEnv m uid cn cv msg t0 W).newMap uid cn cv msg t0 (t0 + d) W
      hmsg hlen hget (by omega)
    rw [harith] at hthis
    exact hthis
  · intro hWd
    have e1 := confess_accept_some goodEnv
      (confess goodEnv m uid cn cv msg t0 W).newMap uid cn cv msg t0 (t0 + d) W
      hmsg hlen hget (by omega)
    rw [e1, confessAccept_goodEnv]
    exact ⟨rfl, rfl⟩

/-- Claim C5 witness: first submission at 100, second at 100 + 50 inside a
300-second window is rejected with remaining wait 250 and unchanged state. -/
theorem rate_limit_window_witness :
    (stripEmpty "hello" = false ∧ ("hello" : String).length ≤ 1500 ∧
     rlGet [] 7 = none ∧ (50 : Int) < 300) ∧
    confess goodEnv (confess goodEnv [] 7 "Love" "love" "hello" 100 300).newMap 7
        "Love" "love" "hello" (100 + 50) 300 =
      ⟨(confess goodEnv [] 7 "Love" "love" "hello" 100 300).newMap,
       [.reply (.rateLimited 300 (300 - 50))]⟩ :=
  ⟨⟨by decide, by decide, rfl, by decide⟩,
   (rate_limit_window [] 7 "Love" "love" "hello" 100 50 300
      (by decide) (by decide) rfl).2.1 (by decide)⟩

/-- Claim C6: when the confession INSERT raises, the handler removes the
rate-limit reservation before reporting the failure (the rollback precedes
the error reply in the trace), the submitter has no entry in the resulting
map, and an immediately following submission from the same submitter under
a working environment passes the rate limiter and is acknowledged. -/
theorem rollback_on_insert_failure (m : RateMap) (uid : Nat) (cn cv msg : String)
    (t W : Int)
    (hmsg : stripEmpty msg = false) (hlen : msg.length ≤ 1500)
    (h0 : rlGet m uid = none) :
    confess insertFailEnv m uid cn cv msg t W =
      ⟨rlPop (rlSet m uid t) uid,
       [.rateReserve uid t, .insertAttempt ⟨msg, cv, t⟩, .rateRollback uid,
        .reply .saveFailed]⟩ ∧
    rlGet (confess insertFailEnv m uid cn cv msg t W).newMap uid = none ∧
    theReply (confess goodEnv (confess insertFailEnv m uid cn cv msg t W).newMap
        uid cn cv msg t W) = some .postedAck := by
  have hfull : confess insertFailEnv m uid cn cv msg t W =
      ⟨rlPop (rlSet m uid t) uid,
       [.rateReserve uid t, .insertAttempt ⟨msg, cv, t⟩, .rateRollback uid,
        .reply .saveFailed]⟩ := by
    rw [confess_accept_none insertFailEnv m uid cn cv msg t W hmsg hlen h0,
        confessAccept_insertFailEnv]
  have hnone : rlGet (confess insertFailEnv m uid cn cv msg t W).newMap uid = none := by
    rw [hfull]
    exact rlGet_rlPop_self (rlSet m uid t) uid
  refine ⟨hfull, hnone, ?_⟩
  rw [confess_accept_none goodEnv _ uid cn cv msg t W hmsg hlen hnone,
      confessAccept_goodEnv]
  rfl

/-- Claim C6 witness at a concrete failing insert. -/
theorem rollback_on_insert_failure_witness :
    (stripEmpty "hi" = false ∧ ("hi" : String).length ≤ 1500 ∧ rlGet [] 9 = none) ∧
    confess insertFailEnv [] 9 "Rant" "rant" "hi" 40 300 =
      ⟨rlPop (rlSet [] 9 40) 9,
       [.rateReserve 9 40, .insertAttempt ⟨"hi", "rant", 40⟩, .rateRollback 9,
        .reply .saveFailed]⟩ :=
  ⟨⟨by decide, by decide, rfl⟩,
   (rollback_on_insert_failure [] 9 "Rant" "rant" "hi" 40 300
      (by decide) (by decide) rfl).1⟩

/-- Claim C8: an empty or all-whitespace content is rejected with no row
created and no state change; a content longer than 1500 characters is
rejected the same way; a non-whitespace content of length exactly 1500
passes validation, and under a working environment a row is created whose
insert carries (content, category, timestamp), materialising with
message_id NULL and deleted false, back-filled only after the channel post
succeeds. -/
theorem confession_validation_bounds (env : ConfessEnv) (m : RateMap) (uid : Nat)
    (cn cv msg : String) (t W : Int) :
    (msg = "" ∨ stripEmpty msg = true →
      confess env m uid cn cv msg t W = ⟨m, [.reply .emptyRejected]⟩) ∧
    (stripEmpty msg = false → 1500 < msg.length →
      confess env m uid cn cv msg t W = ⟨m, [.reply .tooLongRejected]⟩) ∧
    (stripEmpty msg = false → msg.length = 1500 → rlGet m uid = none →
      confess goodEnv m uid cn cv msg t W =
        ⟨rlSet m uid t,
         [.rateReserve uid t, .insertAttempt ⟨msg, cv, t⟩,
          .postEmbed ⟨"Confession #1", truncateTo msg 1900, cn⟩,
          .backfill 777 1, .reply .postedAck]⟩ ∧
      applyConfessionInsert ⟨msg, cv, t⟩ = ⟨msg, cv, t, none, false⟩ ∧
      truncateTo msg 1900 = msg) := by
  refine ⟨?_, ?_, ?_⟩
  · intro hval
    exact confess_empty_eq env m uid cn cv msg t W hval
  · intro hmsg hlong
    exact confess_toolong_eq env m uid cn cv msg t W (not_val_of_strip msg hmsg) hlong
  · intro hmsg hlen h0
    refine ⟨?_, rfl, ?_⟩
    · rw [confess_accept_none goodEnv m uid cn cv msg t W hmsg (le_of_eq hlen) h0,
          confessAccept_goodEnv]
    · unfold truncateTo
      rw [if_pos (by omega)]

/-- Claim C8 witness: a 1501-character content is rejected with no row; a
1500-character content is accepted, inserted, and its insert materialises
with message_id NULL and deleted false. -/
theorem confession_validation_bounds_witness :
    (stripEmpty longMsg = false ∧ 1500 < longMsg.length) ∧
    (stripEmpty exactMsg = false ∧ exactMsg.length = 1500 ∧ rlGet [] 5 = none) ∧
    confess goodEnv [] 5 "Secret" "secret" longMsg 60 300 =
      ⟨[], [.reply .tooLongRejected]⟩ ∧
    (confess goodEnv [] 5 "Secret" "secret" exactMsg 60 300 =
      ⟨rlSet [] 5 60,
       [.rateReserve 5 60, .insertAttempt ⟨exactMsg, "secret", 60⟩,
        .postEmbed ⟨"Confession #1", truncateTo exactMsg 1900, "Secret"⟩,
        .backfill 777 1, .reply .postedAck]⟩ ∧
     applyConfessionInsert ⟨exactMsg, "secret", 60⟩ =
       ⟨exactMsg, "secret", 60, none, false⟩ ∧
     truncateTo exactMsg 1900 = exactMsg) :=
  have hlongLen : 1500 < longMsg.length := by
    unfold longMsg
    show 1500 < (List.replicate 1501 'b').length
    rw [List.length_replicate]
    decide
  have hexactLen : exactMsg.length = 1500 := by
    unfold exactMsg
    show (List.replicate 1500 'a').length = 1500
    rw [List.length_replicate]
  ⟨⟨by decide, hlongLen⟩, ⟨by decide, hexactLen, rfl⟩,
   (confession_validation_bounds goodEnv [] 5 "Secret" "secret" longMsg 60 300).2.1
     (by decide) hlongLen,
   (confession_validation_bounds goodEnv [] 5 "Secret" "secret" exactMsg 60 300).2.2
     (by decide) hexactLen rfl⟩

/-- Claim C9: a message from a non-bot author U with an active AFK status,
mentioning a different non-bot user V who also has an active AFK status,
clears the status of U, announces the welcome-back for U, and still sends
the consolidated notice containing V with the reason of V: clearing the
author status does not suppress the mention notice. -/
theorem afk_mention_independence (db : AfkMap) (U V : UserRef)
    (mentions : List UserRef) (rU rV : AfkRow)
    (hUbot : U.isBot = false) (hU : afkGet db U.id = some rU)
    (hVmem : V ∈ mentions) (hVbot : V.isBot = false)
    (hne : V.id ≠ U.id) (hV : afkGet db V.id = some rV) :
    afkGet (onMessage db U true mentions).1 U.id = none ∧
    MsgEffect.welcomeBack U.id ∈ (onMessage db U true mentions).2 ∧
    ∃ parts, MsgEffect.afkNotice parts ∈ (onMessage db U true mentions).2 ∧
      (V.id, rV.reason.getD "No reason provided") ∈ parts := by
  have hVdel : afkGet (afkDelete db U.id) V.id = some rV := by
    rw [afkGet_afkDelete_ne db U.id V.id hne]
    exact hV
  have hmemIds : V.id ∈ (((mentions.filter fun u => !u.isBot).map UserRef.id).dedup) := by
    rw [List.mem_dedup]
    exact List.mem_map.mpr ⟨V, List.mem_filter.mpr ⟨hVmem, by simp [hVbot]⟩, rfl⟩
  have hpart : (V.id, rV.reason.getD "No reason provided") ∈
      mentionParts (afkDelete db U.id) mentions := by
    unfold mentionParts
    exact List.mem_filterMap.mpr ⟨V.id, hmemIds, by rw [hVdel]; rfl⟩
  have hne' : (mentionParts (afkDelete db U.id) mentions).isEmpty = false := by
    cases hp : mentionParts (afkDelete db U.id) mentions with
    | nil =>
      rw [hp] at hpart
      cases hpart
    | cons a l => rfl
  have heq : onMessage db U true mentions =
      (afkDelete db U.id,
       [MsgEffect.welcomeBack U.id, MsgEffect.welcomeDm U.id,
        MsgEffect.afkNotice (mentionParts (afkDelete db U.id) mentions)]) := by
    simp [onMessage, hUbot, hU, hne']
  refine ⟨?_, ?_, ?_⟩
  · rw [heq]
    exact afkGet_afkDelete_self db U.id
  · rw [heq]
    simp
  · refine ⟨mentionParts (afkDelete db U.id) mentions, ?_, hpart⟩
    rw [heq]
    simp

/-- Claim C9 witness at a concrete table with two AFK users. -/
theorem afk_mention_independence_witness :
    (afkGet [(1, ⟨some "brb", 10⟩), (2, ⟨none, 20⟩)] 1 = some ⟨some "brb", 10⟩ ∧
     afkGet [(1, ⟨some "brb", 10⟩), (2, ⟨none, 20⟩)] 2 = some ⟨none, 20⟩ ∧
     (⟨2, false⟩ : UserRef) ∈ [(⟨2, false⟩ : UserRef)] ∧ (2 : Nat) ≠ 1) ∧
    (afkGet (onMessage [(1, ⟨some "brb", 10⟩), (2, ⟨none, 20⟩)]
        ⟨1, false⟩ true [⟨2, false⟩]).1 1 = none ∧
     MsgEffect.welcomeBack 1 ∈ (onMessage [(1, ⟨some "brb", 10⟩), (2, ⟨none, 20⟩)]
        ⟨1, false⟩ true [⟨2, false⟩]).2 ∧
     ∃ parts, MsgEffect.afkNotice parts ∈ (onMessage [(1, ⟨some "brb", 10⟩), (2, ⟨none, 20⟩)]
        ⟨1, false⟩ true [⟨2, false⟩]).2 ∧
       (2, (AfkRow.mk none 20).reason.getD "No reason provided") ∈ parts) :=
  ⟨⟨rfl, rfl, by decide, by decide⟩,
   afk_mention_independence [(1, ⟨some "brb", 10⟩), (2, ⟨none, 20⟩)]
     ⟨1, false⟩ ⟨2, false⟩ [⟨2, false⟩] ⟨some "brb", 10⟩ ⟨none, 20⟩
     rfl rfl (by decide) rfl (by decide) rfl⟩

/-- The persisted-or-posted part of one confessAccept run does not depend on
the submitter identity or on the rate map contents. -/
theorem confessAccept_public_independent (env : ConfessEnv) (m1 m2 : RateMap)
    (u1 u2 : Nat) (cn cv msg : String) (t : Int) :
    publicTrace (confessAccept env m1 u1 cn cv msg t) =
      publicTrace (confessAccept env m2 u2 cn cv msg t) ∧
    confessionInserts (confessAccept env m1 u1 cn cv msg t) =
      confessionInserts (confessAccept env m2 u2 cn cv msg t) ∧
    postedEmbeds (confessAccept env m1 u1 cn cv msg t) =
      postedEmbeds (confessAccept env m2 u2 cn cv msg t) := by
  rcases env with ⟨db, ins, chid, res, post⟩
  cases db <;> cases ins <;> cases chid <;> cases res <;> cases post <;>
    simp [confessAccept, publicTrace, confessionInserts, postedEmbeds]

/-- Claim C10: for two submitters who both pass the rate-limit check and
submit the same content and category at the same time against the same
environment, the DB inserts, the posted embeds, the back-fills — the whole
persisted-or-posted trace — are identical; the submitter identity reaches
only the rate-limit map and the submitter-facing reply. -/
theorem confession_anonymized (env : ConfessEnv) (m1 m2 : RateMap) (u1 u2 : Nat)
    (cn cv msg : String) (t W : Int)
    (h1 : rlGet m1 u1 = none) (h2 : rlGet m2 u2 = none) :
    publicTrace (confess env m1 u1 cn cv msg t W) =
      publicTrace (confess env m2 u2 cn cv msg t W) ∧
    confessionInserts (confess env m1 u1 cn cv msg t W) =
      confessionInserts (confess env m2 u2 cn cv msg t W) ∧
    postedEmbeds (confess env m1 u1 cn cv msg t W) =
      postedEmbeds (confess env m2 u2 cn cv msg t W) := by
  by_cases hval : msg = "" ∨ stripEmpty msg = true
  · rw [confess_empty_eq env m1 u1 cn cv msg t W hval,
        confess_empty_eq env m2 u2 cn cv msg t W hval]
    exact ⟨rfl, rfl, rfl⟩
  · by_cases hlong : 1500 < msg.length
    · rw [confess_toolong_eq env m1 u1 cn cv msg t W hval hlong,
          confess_toolong_eq env m2 u2 cn cv msg t W hval hlong]
      exact ⟨rfl, rfl, rfl⟩
    · have hmsg : stripEmpty msg = false := by
        cases hb : stripEmpty msg with
        | false => rfl
        | true => exact absurd (Or.inr hb) hval
      have hlen : msg.length ≤ 1500 := not_lt.mp hlong
      rw [confess_accept_none env m1 u1 cn cv msg t W hmsg hlen h1,
          confess_accept_none env m2 u2 cn cv msg t W hmsg hlen h2]
      exact confessAccept_public_independent env (rlSet m1 u1 t) (rlSet m2 u2 t)
        u1 u2 cn cv msg t

/-- Claim C10 witness: two different submitters, same content and category,
same time, same environment — identical persisted and posted output. -/
theorem confession_anonymized_witness :
    (rlGet [] 11 = none ∧ rlGet [(11, 3)] 12 = none) ∧
    (publicTrace (confess goodEnv [] 11 "Other" "other" "same text" 55 300) =
       publicTrace (confess goodEnv [(11, 3)] 12 "Other" "other" "same text" 55 300) ∧
     confessionInserts (confess goodEnv [] 11 "Other" "other" "same text" 55 300) =
       confessionInserts (confess goodEnv [(11, 3)] 12 "Other" "other" "same text" 55 300) ∧
     postedEmbeds (confess goodEnv [] 11 "Other" "other" "same text" 55 300) =
       postedEmbeds (confess goodEnv [(11, 3)] 12 "Other" "other" "same text" 55 300)) :=
  ⟨⟨rfl, rfl⟩,
   confession_anonymized goodEnv [] [(11, 3)] 11 12 "Other" "other" "same text"
     55 300 rfl rfl⟩

end Kyro
